import Mathlib

set_option maxHeartbeats 1000000

/-!
Verification of the mcp-python-client conversation loop (src/main.py).

The embedding models the pure control flow of `agent_loop`, the dict of
registered tools built in `main`, the `MCPClient` connection state machine,
and the event order of `main` (setup of every client scope before the
interactive prompt loop).  External collaborators — the chat-completion
endpoint, the mcp transport, the json library — are modelled as parameters
or by their observable results, as the spec places them out of scope.
-/

namespace MCP

/-- Primitive JSON values as they appear in the decoded tool-call argument
objects.  JSON parsing itself is performed by the external json library; the
argument objects exchanged here bind names to primitive values. -/
inductive Json where
  | null
  | bool (b : Bool)
  | num (n : Int)
  | str (s : String)
  deriving DecidableEq, Repr

/-- A decoded JSON argument object: field names bound to values. -/
abbrev ArgMap := List (String × Json)

/-- The raw `function.arguments` string of a tool call, abstracted by the
result of parsing it: either it parses as a JSON object with the given
fields, or it is not valid JSON. -/
inductive RawArgs where
  | valid (fields : ArgMap)
  | invalid (s : String)
  deriving DecidableEq, Repr

/-- Exceptions that can escape `agent_loop` in main.py: `json.loads` raising
on malformed arguments (line 83), a dict lookup miss `tools[name]`
(line 84), or the tool callable raising (line 84 — a transport or
provider-side failure, the spec's ToolInvocationError). -/
inductive PyError where
  | jsonDecodeError
  | keyError (name : String)
  | toolError (msg : String)
  deriving DecidableEq, Repr

/-- `json.loads(tool_call.function.arguments)` at line 83 of main.py. -/
def json_loads : RawArgs → Except PyError ArgMap
  | .valid fields => .ok fields
  | .invalid _ => .error .jsonDecodeError

/-- One lowercase hexadecimal digit. -/
def hexDigit (n : Nat) : Char :=
  if n < 10 then Char.ofNat (48 + n) else Char.ofNat (87 + n)

/-- Four-digit lowercase hexadecimal rendering, as in a \uXXXX escape. -/
def hex4 (n : Nat) : String :=
  String.mk [hexDigit (n / 4096 % 16), hexDigit (n / 256 % 16),
    hexDigit (n / 16 % 16), hexDigit (n % 16)]

/-- One character of Python `json.dumps` applied to a string (default
`ensure_ascii=True`): printable ASCII other than the quote and the backslash
stays literal, the short escapes follow the json spec, and every other code
point becomes one \uXXXX escape (two, a surrogate pair, above 0xFFFF). -/
def escapeChar (c : Char) : String :=
  if c = '"' then "\\\""
  else if c = '\\' then "\\\\"
  else if c = '\n' then "\\n"
  else if c = '\r' then "\\r"
  else if c = '\t' then "\\t"
  else if c.toNat = 8 then "\\b"
  else if c.toNat = 12 then "\\f"
  else if 32 ≤ c.toNat && c.toNat ≤ 126 then String.mk [c]
  else if c.toNat < 65536 then "\\u" ++ hex4 c.toNat
  else
    "\\u" ++ hex4 (55296 + (c.toNat - 65536) / 1024) ++
      "\\u" ++ hex4 (56320 + (c.toNat - 65536) % 1024)

/-- Python `json.dumps` applied to a string value — line 87 of main.py wraps
the tool result text this way before placing it in the tool message. -/
def jsonDumpsString (s : String) : String :=
  "\"" ++ String.join (s.toList.map escapeChar) ++ "\""

/-- One tool-call request inside a model response: correlation id, function
name and raw argument string (lines 82-84 read `.id`, `.function.name` and
`.function.arguments`). -/
structure ToolCallReq where
  id : String
  name : String
  arguments : RawArgs
  deriving DecidableEq, Repr

/-- A conversation message as built by main.py: the system seed (lines
64-70), the user message (line 71), an assistant message (the SDK message
object carries optional content plus its list of tool calls, lines 86 and
91), and the tool-result message of line 87. -/
inductive Message where
  | system (content : String)
  | user (content : String)
  | assistant (content : Option String) (tool_calls : List ToolCallReq)
  | tool (tool_call_id : String) (name : String) (content : String)
  deriving DecidableEq, Repr

/-- The inner part of a manifest entry: name, description and the provider's
inputSchema (opaque — never inspected by the program). -/
structure FunctionSchema where
  name : String
  description : String
  parameters : Json
  deriving DecidableEq, Repr

/-- The entry placed in the model-facing manifest, lines 120-127 of main.py:
a "function"-typed wrapper around the function schema. -/
structure ToolSchema where
  type : String
  function : FunctionSchema
  deriving DecidableEq, Repr

/-- One value of the `tools` dict built in main (lines 117-128): name,
invocation handle and schema.  The handle returns the textual result or
raises (modelled as Except). -/
structure ToolEntry where
  name : String
  callable : ArgMap → Except String String
  schema : ToolSchema

/-- Python dict assignment `tools[tool.name] = ...` (line 117): overwrite in
place when the name is present (keeping its position), else append. -/
def dictInsert (d : List ToolEntry) (e : ToolEntry) : List ToolEntry :=
  if d.any (fun x => x.name == e.name) then
    d.map (fun x => if x.name == e.name then e else x)
  else d ++ [e]

/-- Python dict lookup `tools[name]` (line 84): the entry, or a KeyError
miss. -/
def dictGet (d : List ToolEntry) (name : String) : Option ToolEntry :=
  d.find? (fun x => x.name == name)

/-- The part of `response.choices[0].message` that agent_loop reads: the
content and the tool calls (an absent/None tool_calls is the empty list,
matching Python truthiness at line 81). -/
structure ModelMessage where
  content : Option String
  tool_calls : List ToolCallReq
  deriving DecidableEq, Repr

/-- One chat-completion request as issued by agent_loop: the message list
and the tools parameter (omitted/None modelled as `none`). -/
structure ChatRequest where
  messages : List Message
  tools : Option (List ToolSchema)
  deriving DecidableEq, Repr

/-- The hosted chat-completion endpoint, external to the program: a function
from the request's messages and tools parameter to the first choice's
message. -/
abbrev ModelOracle := List Message → Option (List ToolSchema) → ModelMessage

/-- The text spliced into the system prompt for its tools placeholder,
lines 66-68 of main.py. -/
def toolsSection (tools : List ToolEntry) : String :=
  String.intercalate "\n- "
    (tools.map (fun t => t.name ++ ": " ++ t.schema.function.description))

/-- Lines 64-70: the messages value at entry of agent_loop, seeding the
system message when no history was passed.  `pre` and `post` are
SYSTEM_PROMPT split around its tools placeholder. -/
def initMessages (pre post : String) (tools : List ToolEntry) :
    Option (List Message) → List Message
  | some ms => ms
  | none => [Message.system (pre ++ toolsSection tools ++ post)]

/-- Line 76: the tools parameter of the first request.  An empty dict is
falsy in Python, so the manifest is omitted (None), never an empty list. -/
def manifestOf (tools : List ToolEntry) : Option (List ToolSchema) :=
  if tools.isEmpty then none else some (tools.map (fun t => t.schema))

/-- The message list carried by the first chat-completion request of a turn:
the (possibly seeded) history plus the appended user message (line 71). -/
def firstRequestMessages (pre post query : String) (tools : List ToolEntry)
    (messages0 : Option (List Message)) : List Message :=
  initMessages pre post tools messages0 ++ [Message.user query]

/-- Result of the per-call loop of lines 82-88: the messages list as mutated
so far, the log of handle invocations performed, and the exception that
stopped the loop, if any. -/
structure ToolLoopResult where
  messages : List Message
  calls : List (String × ArgMap)
  err : Option PyError
  deriving Repr

/-- Lines 82-88 of main.py: the for-loop over the first response's tool
calls.  Each iteration decodes the arguments, looks the name up in the tools
dict, invokes the handle, then extends the messages with the assistant
message object `assistantMsg` followed by the tool-result message — note the
source re-appends `assistantMsg` on every iteration.  An exception stops the
loop, leaving the messages as mutated so far. -/
def run_tool_calls (tools : List ToolEntry) (assistantMsg : Message) :
    List ToolCallReq → List Message → List (String × ArgMap) → ToolLoopResult
  | [], msgs, log => ⟨msgs, log, none⟩
  | tc :: rest, msgs, log =>
    match json_loads tc.arguments with
    | .error e => ⟨msgs, log, some e⟩
    | .ok args =>
      match dictGet tools tc.name with
      | none => ⟨msgs, log, some (.keyError tc.name)⟩
      | some entry =>
        match entry.callable args with
        | .error e => ⟨msgs, log ++ [(tc.name, args)], some (.toolError e)⟩
        | .ok result =>
          run_tool_calls tools assistantMsg rest
            (msgs ++ [assistantMsg, Message.tool tc.id tc.name (jsonDumpsString result)])
            (log ++ [(tc.name, args)])

/-- The observable outcome of one agent_loop call: the returned text or the
escaping exception, the final state of the (in-place mutated) messages list,
the chat-completion requests issued, and the handle invocations performed. -/
structure AgentResult where
  result : Except PyError (Option String)
  messages : List Message
  requests : List ChatRequest
  calls : List (String × ArgMap)

/-- Lines 63-92 of main.py, the whole of agent_loop.  `model` is the
external chat-completion endpoint.  When the first response carries tool
calls, they are run in order, then a second request is issued with the
updated history and no tools parameter; otherwise the first response is
final.  The (second or first) response's content is appended and returned. -/
def agent_loop (model : ModelOracle) (pre post query : String)
    (tools : List ToolEntry) (messages0 : Option (List Message)) : AgentResult :=
  let msgs1 := firstRequestMessages pre post query tools messages0
  let man := manifestOf tools
  let resp1 := model msgs1 man
  if resp1.tool_calls.isEmpty then
    ⟨.ok resp1.content, msgs1 ++ [Message.assistant resp1.content []],
      [⟨msgs1, man⟩], []⟩
  else
    let loop := run_tool_calls tools (Message.assistant resp1.content resp1.tool_calls)
      resp1.tool_calls msgs1 []
    match loop.err with
    | some e => ⟨.error e, loop.messages, [⟨msgs1, man⟩], loop.calls⟩
    | none =>
      let resp2 := model loop.messages none
      ⟨.ok resp2.content, loop.messages ++ [Message.assistant resp2.content []],
        [⟨msgs1, man⟩, ⟨loop.messages, none⟩], loop.calls⟩

/-- One iteration of the prompt loop in main (lines 132-144), with Python
list aliasing made explicit.  On success main rebinds its `messages`
variable to the returned list.  On an exception the rebind does not happen,
but when a previous list was passed in, that same object was mutated in
place inside agent_loop, so the caller still observes the mutation; on a
session's first turn (messages is None) the fresh list built inside
agent_loop is lost and the caller keeps None. -/
def run_turn (model : ModelOracle) (pre post : String) (tools : List ToolEntry)
    (hist : Option (List Message)) (query : String) :
    Option (List Message) × Except PyError (Option String) :=
  let r := agent_loop model pre post query tools hist
  match r.result, hist with
  | .ok t, _ => (some r.messages, .ok t)
  | .error e, none => (none, .error e)
  | .error e, some _ => (some r.messages, .error e)

/-- The connection-holding fields of MCPClient (lines 22-26 of main.py):
`session` and `_client` both start as None.  Live handles issued by the
external transport are identified by numeric ids. -/
structure MCPClient where
  session : Option Nat
  _client : Option Nat
  deriving DecidableEq, Repr

/-- `MCPClient.__init__`: both fields None. -/
def MCPClient.mkNew : MCPClient := ⟨none, none⟩

/-- The behavior of the external collaborators during one connect call:
whether entering the transport (line 41) succeeds, and whether the protocol
handshake on the session (line 44) succeeds. -/
structure HandshakeOutcome where
  enterOk : Bool
  handshakeOk : Bool
  deriving DecidableEq, Repr

/-- MCPClient.connect (lines 38-45), with its mutation order made explicit:
`self._client` is assigned (line 40) before the transport is entered
(line 41, which may raise), and `self.session` is assigned (line 43) before
the protocol handshake runs on it (line 44, which may raise).  The current
state is never examined, so a second connect silently overwrites.  The
returned pair is the client state after the call — Python's field mutations
persist even when an exception escapes — together with the call's outcome.
`fresh` is the id of the newly created transport/session pair and `w` the
behavior of the external collaborators. -/
def MCPClient.connect (c : MCPClient) (fresh : Nat) (w : HandshakeOutcome) :
    MCPClient × Except String Unit :=
  let c1 : MCPClient := ⟨c.session, some fresh⟩
  if w.enterOk then
    let c2 : MCPClient := ⟨some fresh, some fresh⟩
    if w.handshakeOk then (c2, Except.ok ())
    else (c2, Except.error "session handshake failed")
  else (c1, Except.error "transport enter failed")

/-- MCPClient.get_available_tools (lines 47-50): raises RuntimeError when
`session` is still None (connect has not succeeded), otherwise asks the
session for its advertised tools (`listTools` models the external
`session.list_tools()`). -/
def MCPClient.get_available_tools (listTools : Nat → List FunctionSchema)
    (c : MCPClient) : Except String (List FunctionSchema) :=
  match c.session with
  | none => .error "Not connected to MCP server"
  | some s => .ok (listTools s)

/-- MCPClient.call_tool (lines 52-61): the same None-check, then a closure
that calls through the stored session (`wire` models the external
`session.call_tool`). -/
def MCPClient.call_tool (wire : Nat → String → ArgMap → Except String String)
    (c : MCPClient) (tool_name : String) :
    Except String (ArgMap → Except String String) :=
  match c.session with
  | none => .error "Not connected to MCP server"
  | some s => .ok (fun kwargs => wire s tool_name kwargs)

/-- One configured MCP server (an entry of config mcp_servers) together with
the tool names its session advertises during discovery. -/
structure ServerSpec where
  name : String
  tools : List String
  deriving DecidableEq, Repr

/-- Observable events of main (lines 94-144), in program order: entering a
client's async-with scope (connect), registering one discovered tool's
handle, exiting the scope (session and transport teardown), and a registered
handle being called from a conversation turn of the prompt loop. -/
inductive Event where
  | enterScope (clientIdx : Nat)
  | registerTool (clientIdx : Nat) (tool : String)
  | exitScope (clientIdx : Nat)
  | callHandle (clientIdx : Nat) (tool : String)
  deriving DecidableEq, Repr

/-- Whether an event is a handle call from the prompt loop. -/
def Event.isCall : Event → Bool
  | .callHandle _ _ => true
  | _ => false

/-- Lines 111-128: the i-th server's scope is entered, its tools are
registered, and the scope is exited — all inside the async-with statement,
before the next server is set up. -/
def server_events (i : Nat) (s : ServerSpec) : List Event :=
  Event.enterScope i ::
    (s.tools.map (fun n => Event.registerTool i n) ++ [Event.exitScope i])

/-- The setup events of main's for-loop over the configured servers,
numbering clients from `i`. -/
def setup_events_from (i : Nat) : List ServerSpec → List Event
  | [] => []
  | s :: rest => server_events i s ++ setup_events_from (i + 1) rest

/-- All setup events of main's for-loop over config mcp_servers. -/
def setup_events (servers : List ServerSpec) : List Event :=
  setup_events_from 0 servers

/-- The full event order of main: every client scope is entered and exited
during setup, and only afterwards does the prompt loop run, where the
registered handles are called; `handleCalls` lists those calls (client index
and tool name) in order. -/
def main_trace (servers : List ServerSpec) (handleCalls : List (Nat × String)) :
    List Event :=
  setup_events servers ++ handleCalls.map (fun p => Event.callHandle p.1 p.2)

/-- The correlation ids of the tool-result messages of a list, in order. -/
def toolResultIds (ms : List Message) : List String :=
  ms.filterMap (fun m => match m with
    | .tool id _ _ => some id
    | _ => none)

/-- The contents of the tool-result messages of a list, in order. -/
def toolResultContents (ms : List Message) : List String :=
  ms.filterMap (fun m => match m with
    | .tool _ _ content => some content
    | _ => none)

/-- How many messages of the list are assistant messages carrying at least
one tool-call request. -/
def countAssistantWithCalls (ms : List Message) : Nat :=
  (ms.filter (fun m => match m with
    | .assistant _ (_ :: _) => true
    | _ => false)).length

/-- Schema of the concrete test tool X. -/
def schemaX : ToolSchema := ⟨"function", ⟨"X", "a test tool", Json.null⟩⟩

/-- A registered tool X whose handle always answers "r1". -/
def entryOkX : ToolEntry := ⟨"X", fun _ => Except.ok "r1", schemaX⟩

/-- A registered tool X whose handle answers the weather string of the
spec's scenario. -/
def entryWeather : ToolEntry := ⟨"X", fun _ => Except.ok "18C, cloudy", schemaX⟩

/-- A registered tool X whose handle raises. -/
def entryFailX : ToolEntry := ⟨"X", fun _ => Except.error "boom", schemaX⟩

/-- A one-tool registry around `entryOkX`. -/
def toolsOkX : List ToolEntry := [entryOkX]

/-- A one-tool registry around `entryWeather`. -/
def toolsWeather : List ToolEntry := [entryWeather]

/-- A one-tool registry around `entryFailX`. -/
def toolsFailX : List ToolEntry := [entryFailX]

/-- A first tool-call request: call_1 asking for X with argument a = 1. -/
def tcA : ToolCallReq := ⟨"call_1", "X", RawArgs.valid [("a", Json.num 1)]⟩

/-- A second tool-call request: call_2 asking for X with argument a = 2. -/
def tcB : ToolCallReq := ⟨"call_2", "X", RawArgs.valid [("a", Json.num 2)]⟩

/-- A model endpoint whose first response (the one carrying a manifest)
requests two tool calls, and whose follow-up response is plain text. -/
def oracleTwoCalls : ModelOracle := fun _ man =>
  match man with
  | some _ => ⟨none, [tcA, tcB]⟩
  | none => ⟨some "done", []⟩

/-- A model endpoint whose first response requests one tool call. -/
def oracleOneCall : ModelOracle := fun _ man =>
  match man with
  | some _ => ⟨none, [tcA]⟩
  | none => ⟨some "final", []⟩

/-- A model endpoint that never requests tool calls. -/
def oracleNoCalls : ModelOracle := fun _ _ => ⟨some "plain answer", []⟩

/-- No event produced during setup is a handle call: handles are only called
from the prompt loop, which runs after the whole setup loop. -/
theorem setup_events_from_no_call (ss : List ServerSpec) :
    ∀ (i : Nat), ∀ e ∈ setup_events_from i ss, e.isCall = false := by
  induction ss with
  | nil => intro i e he; simp [setup_events_from] at he
  | cons s rest ih =>
    intro i e he
    simp only [setup_events_from, server_events, List.mem_append, List.mem_cons,
      List.mem_map, List.mem_singleton] at he
    rcases he with (rfl | ⟨⟨n, _, rfl⟩ | rfl | hmem⟩) | he
    · rfl
    · rfl
    · rfl
    · simp at hmem
    · exact ih (i + 1) e he

/-- Every event of the prompt-loop part of the trace is a handle call. -/
theorem handle_calls_are_calls (handleCalls : List (Nat × String)) :
    ∀ e ∈ handleCalls.map (fun p => Event.callHandle p.1 p.2), e.isCall = true := by
  intro e he
  simp only [List.mem_map] at he
  obtain ⟨p, _, rfl⟩ := he
  rfl

/-- An element found at a position of a list is a member of the list. -/
theorem mem_of_index {α : Type} {l : List α} {n : Nat} {a : α}
    (h : l[n]? = some a) : a ∈ l := by
  obtain ⟨hn, rfl⟩ := List.getElem?_eq_some_iff.mp h
  exact List.getElem_mem hn

/-- Claim C2: in main, each client's async-with scope is exited during setup,
immediately after tool discovery, and the prompt loop only runs afterwards;
hence in the event trace of main, any call of a registered handle of client i
during a conversation turn comes strictly after the event that exits client
i's session context. -/
theorem C2_scope_exit_precedes_handle_calls (servers : List ServerSpec)
    (handleCalls : List (Nat × String)) (p q i : Nat) (n : String)
    (hp : (main_trace servers handleCalls)[p]? = some (Event.exitScope i))
    (hq : (main_trace servers handleCalls)[q]? = some (Event.callHandle i n)) :
    p < q := by
  have hq' : (setup_events servers).length ≤ q := by
    by_contra hlt
    push_neg at hlt
    rw [main_trace] at hq
    rw [List.getElem?_append] at hq
    simp only [hlt, if_pos] at hq
    have hmem : Event.callHandle i n ∈ setup_events servers := mem_of_index hq
    have := setup_events_from_no_call servers 0 _ hmem
    simp [Event.isCall] at this
  have hp' : p < (setup_events servers).length := by
    by_contra hge
    push_neg at hge
    rw [main_trace, List.getElem?_append_right hge] at hp
    have hmem : Event.exitScope i ∈
        handleCalls.map (fun p => Event.callHandle p.1 p.2) := mem_of_index hp
    have := handle_calls_are_calls handleCalls _ hmem
    simp [Event.isCall] at this
  omega

/-- Claim C2 witness: one configured server advertising one tool, one handle
call during the prompt loop; the scope-exit event at index 2 precedes the
handle-call event at index 3. -/
theorem C2_scope_exit_precedes_handle_calls_witness :
    (main_trace [⟨"srv", ["t"]⟩] [(0, "t")])[2]? = some (Event.exitScope 0) ∧
    (main_trace [⟨"srv", ["t"]⟩] [(0, "t")])[3]? = some (Event.callHandle 0 "t") ∧
    2 < 3 :=
  ⟨by decide, by decide,
    C2_scope_exit_precedes_handle_calls [⟨"srv", ["t"]⟩] [(0, "t")] 2 3 0 "t"
      (by decide) (by decide)⟩

/-- When the per-call loop finishes without an exception, the tool-result
ids it appended are exactly the ids of the processed requests, in order
(the re-appended assistant message contributes no tool-result id). -/
theorem run_tool_calls_ids (tools : List ToolEntry) (c : Option String)
    (atc : List ToolCallReq) (tcs : List ToolCallReq) :
    ∀ (msgs : List Message) (log : List (String × ArgMap)),
      (run_tool_calls tools (Message.assistant c atc) tcs msgs log).err = none →
      toolResultIds (run_tool_calls tools (Message.assistant c atc) tcs msgs log).messages
        = toolResultIds msgs ++ tcs.map (fun tc => tc.id) := by
  induction tcs with
  | nil => intro msgs log _; simp [run_tool_calls]
  | cons tc rest ih =>
    intro msgs log h
    cases hj : json_loads tc.arguments with
    | error e => simp [run_tool_calls, hj] at h
    | ok args =>
      cases hg : dictGet tools tc.name with
      | none => simp [run_tool_calls, hj, hg] at h
      | some entry =>
        cases hc : entry.callable args with
        | error e => simp [run_tool_calls, hj, hg, hc] at h
        | ok result =>
          simp only [run_tool_calls, hj, hg, hc] at h ⊢
          rw [ih _ _ h]
          simp [toolResultIds, List.filterMap_append]

/-- The per-call loop only ever appends to the messages list: the messages
it was given remain a prefix of the messages it leaves behind, whether or
not it stops with an exception. -/
theorem run_tool_calls_keeps_old_messages (tools : List ToolEntry)
    (assistantMsg : Message) (tcs : List ToolCallReq) :
    ∀ (msgs : List Message) (log : List (String × ArgMap)),
      msgs <+: (run_tool_calls tools assistantMsg tcs msgs log).messages := by
  induction tcs with
  | nil => intro msgs log; exact List.prefix_refl msgs
  | cons tc rest ih =>
    intro msgs log
    cases hj : json_loads tc.arguments with
    | error e =>
      simp only [run_tool_calls, hj]
      exact List.prefix_refl msgs
    | ok args =>
      cases hg : dictGet tools tc.name with
      | none =>
        simp only [run_tool_calls, hj, hg]
        exact List.prefix_refl msgs
      | some entry =>
        cases hc : entry.callable args with
        | error e =>
          simp only [run_tool_calls, hj, hg, hc]
          exact List.prefix_refl msgs
        | ok result =>
          simp only [run_tool_calls, hj, hg, hc]
          exact (List.prefix_append msgs _).trans (ih _ _)

/-- agent_loop only ever appends to the messages list it was given (after
adding the user message): the first request's message list is a prefix of
the messages agent_loop leaves behind, on every path including the
exception paths. -/
theorem agent_loop_keeps_old_messages (model : ModelOracle)
    (pre post query : String) (tools : List ToolEntry)
    (messages0 : Option (List Message)) :
    firstRequestMessages pre post query tools messages0 <+:
      (agent_loop model pre post query tools messages0).messages := by
  simp only [agent_loop]
  split
  · exact List.prefix_append _ _
  · split
    · exact run_tool_calls_keeps_old_messages _ _ _ _ _
    · exact (run_tool_calls_keeps_old_messages _ _ _ _ _).trans
        (List.prefix_append _ _)

/-- Claim C1: the spec states the assistant message carrying the tool-call
requests is appended to the history exactly once.  In the code it is
appended inside the per-call loop (line 86 sits inside the for of line 82),
so a first response carrying two tool-call requests puts two copies of that
assistant message into the history: evaluating agent_loop on such a
response yields a history with two assistant messages carrying tool calls. -/
theorem C1_assistant_message_duplicated :
    countAssistantWithCalls
      (agent_loop oracleTwoCalls "P: " "" "q" toolsOkX none).messages = 2 ∧
    (agent_loop oracleTwoCalls "P: " "" "q" toolsOkX none).messages =
      [Message.system ("P: " ++ toolsSection toolsOkX), Message.user "q",
       Message.assistant none [tcA, tcB], Message.tool "call_1" "X" (jsonDumpsString "r1"),
       Message.assistant none [tcA, tcB], Message.tool "call_2" "X" (jsonDumpsString "r1"),
       Message.assistant (some "done") []] := by
  refine ⟨by rfl, by rfl⟩

/-- Claim C7: when the model's first response carries no tool-call requests,
agent_loop issues exactly one chat-completion request, appends that first
response's text to the history, and returns it as the turn's result. -/
theorem C7_no_tool_calls_single_request (model : ModelOracle)
    (pre post query : String) (tools : List ToolEntry)
    (messages0 : Option (List Message))
    (h : (model (firstRequestMessages pre post query tools messages0)
      (manifestOf tools)).tool_calls = []) :
    (agent_loop model pre post query tools messages0).requests.length = 1 ∧
    (agent_loop model pre post query tools messages0).result =
      Except.ok (model (firstRequestMessages pre post query tools messages0)
        (manifestOf tools)).content ∧
    (agent_loop model pre post query tools messages0).messages =
      firstRequestMessages pre post query tools messages0 ++
        [Message.assistant
          (model (firstRequestMessages pre post query tools messages0)
            (manifestOf tools)).content []] := by
  simp [agent_loop, h]

/-- Claim C7 witness: a model that answers in plain text produces one
request, the answer as the result, and the answer appended to history. -/
theorem C7_no_tool_calls_single_request_witness :
    (oracleNoCalls (firstRequestMessages "P: " "" "q" toolsOkX none)
      (manifestOf toolsOkX)).tool_calls = [] ∧
    ((agent_loop oracleNoCalls "P: " "" "q" toolsOkX none).requests.length = 1 ∧
     (agent_loop oracleNoCalls "P: " "" "q" toolsOkX none).result =
       Except.ok (oracleNoCalls (firstRequestMessages "P: " "" "q" toolsOkX none)
         (manifestOf toolsOkX)).content ∧
     (agent_loop oracleNoCalls "P: " "" "q" toolsOkX none).messages =
       firstRequestMessages "P: " "" "q" toolsOkX none ++
         [Message.assistant
           (oracleNoCalls (firstRequestMessages "P: " "" "q" toolsOkX none)
             (manifestOf toolsOkX)).content []]) :=
  ⟨rfl, C7_no_tool_calls_single_request oracleNoCalls "P: " "" "q" toolsOkX none rfl⟩

/-- Claim C8: with an empty registry the seeded system message's tool-list
section is the empty string, and the first chat-completion request of the
turn carries no tool manifest — the tools parameter is None, not an empty
list. -/
theorem C8_empty_registry_empty_section_no_manifest (model : ModelOracle)
    (pre post query : String) :
    toolsSection [] = "" ∧
    manifestOf [] = none ∧
    firstRequestMessages pre post query [] none =
      [Message.system (pre ++ toolsSection [] ++ post), Message.user query] ∧
    (agent_loop model pre post query [] none).requests.head? =
      some ⟨firstRequestMessages pre post query [] none, none⟩ := by
  refine ⟨rfl, rfl, rfl, ?_⟩
  simp only [agent_loop]
  split
  · rfl
  · split
    · rfl
    · rfl

/-- Tool-result ids distribute over list append. -/
theorem toolResultIds_append (a b : List Message) :
    toolResultIds (a ++ b) = toolResultIds a ++ toolResultIds b := by
  simp [toolResultIds]

/-- An assistant message contributes no tool-result id. -/
theorem toolResultIds_assistant (c : Option String) (tcs : List ToolCallReq) :
    toolResultIds [Message.assistant c tcs] = [] := rfl

/-- Claim C3 counterexample: the registered handle for X returns the string
"18C, cloudy", but the content of the tool-result message the turn appends
is the json.dumps encoding of that string — wrapped in quote characters —
so the handle's return value does not appear verbatim as the content. -/
theorem C3_result_not_verbatim_counterexample :
    toolResultContents
      (agent_loop oracleOneCall "P: " "" "q" toolsWeather none).messages
      = ["\"18C, cloudy\""] ∧
    ("\"18C, cloudy\"" : String) ≠ "18C, cloudy" :=
  ⟨by rfl, by decide⟩

/-- Claim C3 (amended): if the registry contains tool X and the model's
first response requests X once with arguments a = 1, the registered handle
is invoked exactly once with exactly the decoded arguments, and the content
of the corresponding tool-result message is the json.dumps encoding of the
string the handle returned (quoted and escaped), not the raw string. -/
theorem C3_invoked_once_content_json_encoded (model : ModelOracle)
    (pre post query : String) (tools : List ToolEntry)
    (messages0 : Option (List Message)) (entry : ToolEntry)
    (cid : String) (c0 : Option String) (s : String)
    (hresp : model (firstRequestMessages pre post query tools messages0)
        (manifestOf tools)
      = ⟨c0, [⟨cid, "X", RawArgs.valid [("a", Json.num 1)]⟩]⟩)
    (hget : dictGet tools "X" = some entry)
    (hcall : entry.callable [("a", Json.num 1)] = Except.ok s) :
    (agent_loop model pre post query tools messages0).calls
      = [("X", [("a", Json.num 1)])] ∧
    Message.tool cid "X" (jsonDumpsString s) ∈
      (agent_loop model pre post query tools messages0).messages := by
  simp only [agent_loop, hresp]
  simp [run_tool_calls, json_loads, hget, hcall]

/-- Claim C3 witness: the weather scenario — handle returns "18C, cloudy",
it is invoked exactly once with a = 1, and the tool message carries the
json.dumps encoding of that string. -/
theorem C3_invoked_once_content_json_encoded_witness :
    oracleOneCall (firstRequestMessages "P: " "" "q" toolsWeather none)
        (manifestOf toolsWeather)
      = ⟨none, [⟨"call_1", "X", RawArgs.valid [("a", Json.num 1)]⟩]⟩ ∧
    dictGet toolsWeather "X" = some entryWeather ∧
    entryWeather.callable [("a", Json.num 1)] = Except.ok "18C, cloudy" ∧
    ((agent_loop oracleOneCall "P: " "" "q" toolsWeather none).calls
      = [("X", [("a", Json.num 1)])] ∧
     Message.tool "call_1" "X" (jsonDumpsString "18C, cloudy") ∈
       (agent_loop oracleOneCall "P: " "" "q" toolsWeather none).messages) :=
  ⟨rfl, rfl, rfl,
    C3_invoked_once_content_json_encoded oracleOneCall "P: " "" "q" toolsWeather
      none entryWeather "call_1" none "18C, cloudy" rfl rfl rfl⟩

/-- Claim C4 counterexample: a non-first turn whose single tool call fails
does not leave the caller-visible history unchanged — the user message
appended before the failure remains in it, because agent_loop mutates the
caller's list in place and the exception skips only the variable rebind. -/
theorem C4_history_not_restored_counterexample :
    (run_turn oracleOneCall "P: " "" toolsFailX
      (some [Message.system "S"]) "q").1
      = some [Message.system "S", Message.user "q"] ∧
    (some [Message.system "S", Message.user "q"]
      : Option (List Message)) ≠ some [Message.system "S"] ∧
    (run_turn oracleOneCall "P: " "" toolsFailX
      (some [Message.system "S"]) "q").2
      = Except.error (PyError.toolError "boom") :=
  ⟨by rfl, by decide, by rfl⟩

/-- Claim C4 (amended): when a tool invocation fails during a turn, the turn
aborts with the raw failure; but on a non-first turn the caller-visible
history is not restored to its start-of-turn value — it is the in-place
mutated list, which still extends the start-of-turn history with the turn's
user message and whatever was appended before the failure.  (Only on a
session's first turn, where no history object exists yet, does the caller's
history variable stay unchanged.) -/
theorem C4_error_leaves_mutated_history (model : ModelOracle)
    (pre post query : String) (tools : List ToolEntry)
    (h0 : List Message) (e : PyError)
    (hr : (agent_loop model pre post query tools (some h0)).result
      = Except.error e) :
    (run_turn model pre post tools (some h0) query).1
      = some (agent_loop model pre post query tools (some h0)).messages ∧
    (h0 ++ [Message.user query]) <+:
      (agent_loop model pre post query tools (some h0)).messages ∧
    (run_turn model pre post tools (some h0) query).2 = Except.error e := by
  refine ⟨?_, ?_, ?_⟩
  · simp [run_turn, hr]
  · have h := agent_loop_keeps_old_messages model pre post query tools (some h0)
    simpa [firstRequestMessages, initMessages] using h
  · simp [run_turn, hr]

/-- Claim C4 witness for the amended statement: on a turn started with one
prior system message whose tool call fails, the caller sees the mutated
two-message history and the raw tool error. -/
theorem C4_error_leaves_mutated_history_witness :
    (agent_loop oracleOneCall "P: " "" "q" toolsFailX
      (some [Message.system "S"])).result
      = Except.error (PyError.toolError "boom") ∧
    ((run_turn oracleOneCall "P: " "" toolsFailX
        (some [Message.system "S"]) "q").1
      = some (agent_loop oracleOneCall "P: " "" "q" toolsFailX
          (some [Message.system "S"])).messages ∧
     ([Message.system "S"] ++ [Message.user "q"]) <+:
       (agent_loop oracleOneCall "P: " "" "q" toolsFailX
         (some [Message.system "S"])).messages ∧
     (run_turn oracleOneCall "P: " "" toolsFailX
       (some [Message.system "S"]) "q").2
       = Except.error (PyError.toolError "boom")) :=
  ⟨rfl, C4_error_leaves_mutated_history oracleOneCall "P: " "" "q" toolsFailX
    [Message.system "S"] (PyError.toolError "boom") rfl⟩

/-- Claim C5: whenever a turn returns successfully, the tool-result messages
appended to the history are exactly one per tool-call request of the
model's first response, in the same relative order, each carrying the
correlation id of its request. -/
theorem C5_tool_results_match_requests (model : ModelOracle)
    (pre post query : String) (tools : List ToolEntry)
    (messages0 : Option (List Message)) (t : Option String)
    (hok : (agent_loop model pre post query tools messages0).result
      = Except.ok t) :
    toolResultIds (agent_loop model pre post query tools messages0).messages
      = toolResultIds (firstRequestMessages pre post query tools messages0)
        ++ (model (firstRequestMessages pre post query tools messages0)
            (manifestOf tools)).tool_calls.map (fun tc => tc.id) := by
  cases hE : (model (firstRequestMessages pre post query tools messages0)
      (manifestOf tools)).tool_calls.isEmpty with
  | true =>
    have hnil := List.isEmpty_iff.mp hE
    simp [agent_loop, hE, hnil, toolResultIds_append, toolResultIds]
  | false =>
    cases herr : (run_tool_calls tools
        (Message.assistant
          (model (firstRequestMessages pre post query tools messages0)
            (manifestOf tools)).content
          (model (firstRequestMessages pre post query tools messages0)
            (manifestOf tools)).tool_calls)
        (model (firstRequestMessages pre post query tools messages0)
          (manifestOf tools)).tool_calls
        (firstRequestMessages pre post query tools messages0) []).err with
    | some e => simp [agent_loop, hE, herr] at hok
    | none =>
      have hids := run_tool_calls_ids tools
        (model (firstRequestMessages pre post query tools messages0)
          (manifestOf tools)).content
        (model (firstRequestMessages pre post query tools messages0)
          (manifestOf tools)).tool_calls
        (model (firstRequestMessages pre post query tools messages0)
          (manifestOf tools)).tool_calls
        (firstRequestMessages pre post query tools messages0) [] herr
      simp [agent_loop, hE, herr, toolResultIds_append, toolResultIds_assistant, hids]

/-- Claim C5 witness: a first response with two tool calls yields exactly
two tool-result messages, tagged call_1 then call_2, in request order. -/
theorem C5_tool_results_match_requests_witness :
    (agent_loop oracleTwoCalls "P: " "" "q" toolsOkX none).result
      = Except.ok (some "done") ∧
    toolResultIds (agent_loop oracleTwoCalls "P: " "" "q" toolsOkX none).messages
      = toolResultIds (firstRequestMessages "P: " "" "q" toolsOkX none)
        ++ (oracleTwoCalls (firstRequestMessages "P: " "" "q" toolsOkX none)
            (manifestOf toolsOkX)).tool_calls.map (fun tc => tc.id) :=
  ⟨rfl, C5_tool_results_match_requests oracleTwoCalls "P: " "" "q" toolsOkX
    none (some "done") rfl⟩

/-- Claim C6: if a tool's invocation handle fails while the first response's
tool calls are being executed, the turn terminates with that error (the
ToolInvocationError of the spec's taxonomy) and only the single first
chat-completion request was issued — no second round. -/
theorem C6_tool_failure_no_second_request (model : ModelOracle)
    (pre post query : String) (tools : List ToolEntry)
    (messages0 : Option (List Message)) (e : String)
    (hfail : (run_tool_calls tools
        (Message.assistant
          (model (firstRequestMessages pre post query tools messages0)
            (manifestOf tools)).content
          (model (firstRequestMessages pre post query tools messages0)
            (manifestOf tools)).tool_calls)
        (model (firstRequestMessages pre post query tools messages0)
          (manifestOf tools)).tool_calls
        (firstRequestMessages pre post query tools messages0) []).err
      = some (PyError.toolError e)) :
    (agent_loop model pre post query tools messages0).result
      = Except.error (PyError.toolError e) ∧
    (agent_loop model pre post query tools messages0).requests
      = [⟨firstRequestMessages pre post query tools messages0,
          manifestOf tools⟩] := by
  have hne : (model (firstRequestMessages pre post query tools messages0)
      (manifestOf tools)).tool_calls.isEmpty = false := by
    cases hc : (model (firstRequestMessages pre post query tools messages0)
        (manifestOf tools)).tool_calls with
    | nil => rw [hc] at hfail; simp [run_tool_calls] at hfail
    | cons a l => simp [hc]
  refine ⟨?_, ?_⟩ <;> simp [agent_loop, hne, hfail]

/-- Claim C6 witness: the failing tool scenario — result is the tool error
and exactly the one first request was issued. -/
theorem C6_tool_failure_no_second_request_witness :
    (run_tool_calls toolsFailX
        (Message.assistant
          (oracleOneCall (firstRequestMessages "P: " "" "q" toolsFailX none)
            (manifestOf toolsFailX)).content
          (oracleOneCall (firstRequestMessages "P: " "" "q" toolsFailX none)
            (manifestOf toolsFailX)).tool_calls)
        (oracleOneCall (firstRequestMessages "P: " "" "q" toolsFailX none)
          (manifestOf toolsFailX)).tool_calls
        (firstRequestMessages "P: " "" "q" toolsFailX none) []).err
      = some (PyError.toolError "boom") ∧
    ((agent_loop oracleOneCall "P: " "" "q" toolsFailX none).result
      = Except.error (PyError.toolError "boom") ∧
     (agent_loop oracleOneCall "P: " "" "q" toolsFailX none).requests
      = [⟨firstRequestMessages "P: " "" "q" toolsFailX none,
          manifestOf toolsFailX⟩]) :=
  ⟨rfl, C6_tool_failure_no_second_request oracleOneCall "P: " "" "q"
    toolsFailX none "boom" rfl⟩

/-- Claim C9 counterexample: connect performs no connected-state check; a
second connect on an already connected client, with a cooperating server,
does not error — it returns ok and silently overwrites the stored session
(id 0 becomes id 1). -/
theorem C9_second_connect_succeeds_counterexample :
    MCPClient.mkNew.connect 0 ⟨true, true⟩ = (⟨some 0, some 0⟩, Except.ok ()) ∧
    MCPClient.connect ⟨some 0, some 0⟩ 1 ⟨true, true⟩
      = (⟨some 1, some 1⟩, Except.ok ()) ∧
    (some 1 : Option Nat) ≠ some 0 :=
  ⟨rfl, rfl, by decide⟩

/-- Claim C9 (amended): calling connect() a second time without an
intervening disconnect is not disallowed and does not fail fast: connect
never examines the current state, so on an already connected client a
connect whose external steps cooperate succeeds and overwrites the stored
session and transport with the fresh ones. -/
theorem C9_connect_overwrites_silently (c : MCPClient) (old fresh : Nat)
    (_hconnected : c.session = some old) :
    c.connect fresh ⟨true, true⟩ = (⟨some fresh, some fresh⟩, Except.ok ()) := rfl

/-- Claim C9 witness for the amended statement: a connected client (session
id 0) reconnected with fresh id 1 yields ok with session id 1. -/
theorem C9_connect_overwrites_silently_witness :
    (MCPClient.mk (some 0) (some 0)).session = some 0 ∧
    MCPClient.connect ⟨some 0, some 0⟩ 1 ⟨true, true⟩
      = (⟨some 1, some 1⟩, Except.ok ()) :=
  ⟨rfl, C9_connect_overwrites_silently ⟨some 0, some 0⟩ 0 1 rfl⟩

/-- Claim C10 counterexample: connect assigns self.session (line 43) before
the protocol handshake runs (line 44), so a connect whose handshake fails
has not succeeded yet leaves session set; on that client
get_available_tools passes its None-guard and returns the session's tool
list instead of failing with the NotConnected RuntimeError. -/
theorem C10_failed_handshake_not_caught_counterexample :
    (MCPClient.mkNew.connect 0 ⟨true, false⟩).2
      = Except.error "session handshake failed" ∧
    (MCPClient.mkNew.connect 0 ⟨true, false⟩).1.session = some 0 ∧
    (MCPClient.mkNew.connect 0 ⟨true, false⟩).1.get_available_tools
        (fun _ => [⟨"t", "d", Json.null⟩])
      = Except.ok [⟨"t", "d", Json.null⟩] ∧
    (Except.ok [(⟨"t", "d", Json.null⟩ : FunctionSchema)]
        : Except String (List FunctionSchema))
      ≠ Except.error "Not connected to MCP server" :=
  ⟨rfl, rfl, rfl, fun h => Except.noConfusion h⟩

/-- Claim C10 (amended): get_available_tools raises the NotConnected
RuntimeError exactly when the session field is still None — that is, when
connect was never attempted or failed before the session assignment of
line 43.  "connect() has not succeeded" is strictly weaker than that guard:
a connect whose protocol handshake (line 44) fails has not succeeded but
leaves session set, and on such a client get_available_tools does not raise
NotConnected — it proceeds on the unhandshaken session and returns its tool
list. -/
theorem C10_not_connected_guard_is_session_none
    (listTools : Nat → List FunctionSchema) (c : MCPClient) (fresh : Nat)
    (h : c.session = none) :
    c.get_available_tools listTools
      = Except.error "Not connected to MCP server" ∧
    (c.connect fresh ⟨true, false⟩).2
      = Except.error "session handshake failed" ∧
    ((c.connect fresh ⟨true, false⟩).1).get_available_tools listTools
      = Except.ok (listTools fresh) := by
  refine ⟨?_, rfl, rfl⟩
  simp [MCPClient.get_available_tools, h]

/-- Claim C10 witness for the amended statement: a fresh client's
get_available_tools errors, while the same client after a handshake-failing
connect answers with the session's tool list. -/
theorem C10_not_connected_guard_is_session_none_witness :
    MCPClient.mkNew.session = none ∧
    (MCPClient.mkNew.get_available_tools (fun _ => [])
      = Except.error "Not connected to MCP server" ∧
     (MCPClient.mkNew.connect 7 ⟨true, false⟩).2
      = Except.error "session handshake failed" ∧
     ((MCPClient.mkNew.connect 7 ⟨true, false⟩).1).get_available_tools (fun _ => [])
      = Except.ok []) :=
  ⟨rfl, C10_not_connected_guard_is_session_none (fun _ => []) MCPClient.mkNew 7 rfl⟩

end MCP
